import Mathlib

/-!
Verification of the `Image` component of cros-libva (`src/image.rs`).

The Rust source wraps a native libva `VAImage`: construction maps the image
buffer via `vaMapBuffer` (destroying the image via `vaDestroyImage` when the
map fails), accessors expose the descriptor, the derived flag and the mapped
byte view, and `Drop` unmaps the buffer and destroys the image.

The native layer is modelled as an environment fixing the status and
address answered by `vaMapBuffer` and the (ignored) statuses of
`vaUnmapBuffer` / `vaDestroyImage`; every operation additionally returns
the list of native calls it issued, in order.
-/

namespace CrosLibva

/-- The `VAImage` descriptor as used by `image.rs`: the image identifier,
the buffer identifier of its backing buffer, and its total data size.
Other fields (format, planes, dimensions) are opaque to this component. -/
structure VAImage where
  image_id : Nat
  buf : Nat
  data_size : Nat
deriving DecidableEq, Repr

/-- `VaError` wraps the raw nonzero `VAStatus` returned by a native call. -/
structure VaError where
  status : Int
deriving DecidableEq, Repr

/-- The display/session object; only its native handle is relevant here.
`Rc<Display>` sharing is modelled by value equality of the handle. -/
structure Display where
  handle : Nat
deriving DecidableEq, Repr

/-- The slice of a `Picture<PictureSync, D>` visible to `Image::new`: its
display (obtained through `picture.display()`). -/
structure Picture where
  display : Display
deriving DecidableEq, Repr

/-- A native libva call issued by this component, with its arguments. -/
inductive NativeCall where
  | mapBuffer (dpy : Nat) (buf : Nat)
  | unmapBuffer (dpy : Nat) (buf : Nat)
  | destroyImage (dpy : Nat) (imageId : Nat)
deriving DecidableEq, Repr

/-- The display handle a native call is issued through. -/
def NativeCall.dpy : NativeCall → Nat
  | .mapBuffer d _ => d
  | .unmapBuffer d _ => d
  | .destroyImage d _ => d

/-- Recognizer for `vaDestroyImage` calls. -/
def NativeCall.isDestroy : NativeCall → Bool
  | .destroyImage _ _ => true
  | _ => false

/-- Recognizer for `vaUnmapBuffer` calls. -/
def NativeCall.isUnmap : NativeCall → Bool
  | .unmapBuffer _ _ => true
  | _ => false

/-- Responses of the native layer: what `vaMapBuffer` answers (status and
the address written through its out-pointer), and the statuses answered by
`vaDestroyImage` and `vaUnmapBuffer` (the Rust code discards both). -/
structure NativeEnv where
  mapStatus : Int
  mapAddr : Nat
  destroyStatus : Int
  unmapStatus : Int
deriving DecidableEq, Repr

/-- The mapped byte view built by `std::slice::from_raw_parts_mut(addr, len)`:
a borrowed region of `len` bytes starting at `addr`. -/
structure Slice where
  addr : Nat
  len : Nat
deriving DecidableEq, Repr

/-- The `Image` struct of `image.rs`: the cloned display handle, the
`VAImage` descriptor, the mapped data view, and the `derived` flag. -/
structure Image where
  display : Display
  image : VAImage
  data : Slice
  derived : Bool
deriving DecidableEq, Repr

/-- `va_check`: translates a raw `VAStatus` into `Result<(), VaError>`;
`VA_STATUS_SUCCESS` is 0, any other status becomes a `VaError`. -/
def va_check (status : Int) : Except VaError Unit :=
  if status = 0 then .ok () else .error ⟨status⟩

/-- `Image::new`: calls `vaMapBuffer(picture.display().handle(), image.buf)`.
On success it builds the `Image` from the cloned display, the descriptor, a
`data_size`-byte view at the returned address, and the `derived` flag. On
failure it calls `vaDestroyImage(picture.display().handle(), image.image_id)`
(discarding its status) and returns the map error. The second component is
the trace of native calls issued. -/
def Image.new (env : NativeEnv) (picture : Picture) (image : VAImage)
    (derived : Bool) : Except VaError Image × List NativeCall :=
  match va_check env.mapStatus with
  | .ok _ =>
      (.ok { display := picture.display
             image := image
             data := { addr := env.mapAddr, len := image.data_size }
             derived := derived },
       [.mapBuffer picture.display.handle image.buf])
  | .error e =>
      (.error e,
       [.mapBuffer picture.display.handle image.buf,
        .destroyImage picture.display.handle image.image_id])

/-- `is_derived`: returns the `derived` flag. -/
def Image.is_derived (self : Image) : Bool :=
  self.derived

/-- `AsRef<[u8]>::as_ref`: returns the mapped data view. -/
def Image.as_ref (self : Image) : Slice :=
  self.data

/-- `Drop::drop`: unconditionally calls
`vaUnmapBuffer(self.display.handle(), self.image.buf)` and then
`vaDestroyImage(self.display.handle(), self.image.image_id)`, discarding
both statuses. Returns the trace of native calls issued. -/
def Image.drop (self : Image) : List NativeCall :=
  [.unmapBuffer self.display.handle self.image.buf,
   .destroyImage self.display.handle self.image.image_id]

/-- One accessor invocation on a live `Image`: `image()`, `is_derived()`
or `as_ref()`. -/
inductive AccessorOp where
  | getImage
  | getDerived
  | getBytes
deriving DecidableEq, Repr

/-- The value an accessor invocation returns. -/
inductive AccessorResult where
  | img (v : VAImage)
  | flag (b : Bool)
  | bytes (s : Slice)
deriving DecidableEq, Repr

/-- Run one accessor on the instance: each accessor reads a field, leaves
the instance untouched and issues no native call, exactly as the Rust
bodies (`&self.image`, `self.derived`, `self.data`) do. -/
def runAccessor (op : AccessorOp) (self : Image) :
    AccessorResult × Image × List NativeCall :=
  match op with
  | .getImage => (.img self.image, self, [])
  | .getDerived => (.flag self.is_derived, self, [])
  | .getBytes => (.bytes self.as_ref, self, [])

/-- Run a sequence of accessor calls, threading the instance state and
concatenating the native-call traces. -/
def runAccessors : List AccessorOp → Image → List AccessorResult × Image × List NativeCall
  | [], self => ([], self, [])
  | op :: ops, self =>
      let r := runAccessor op self
      let rest := runAccessors ops r.2.1
      (r.1 :: rest.1, rest.2.1, r.2.2 ++ rest.2.2)

/-- Every accessor leaves the instance state unchanged. -/
theorem runAccessor_state (op : AccessorOp) (self : Image) :
    (runAccessor op self).2.1 = self := by
  cases op <;> rfl

/-- Every accessor issues no native call. -/
theorem runAccessor_trace (op : AccessorOp) (self : Image) :
    (runAccessor op self).2.2 = [] := by
  cases op <;> rfl

/-- A sequence of accessor calls returns each accessor applied to the
original instance, leaves the instance unchanged, and issues no native
call. -/
theorem runAccessors_spec (ops : List AccessorOp) (img : Image) :
    runAccessors ops img = (ops.map fun op => (runAccessor op img).1, img, []) := by
  induction ops with
  | nil => rfl
  | cons op ops ih =>
      simp [runAccessors, runAccessor_state, runAccessor_trace, ih]

/-- Anatomy of a successful construction: the instance is built from the
cloned display, the descriptor, a `data_size`-byte view at the mapped
address, and the `derived` flag, and the trace is the single map call. -/
theorem Image.new_ok (env : NativeEnv) (picture : Picture) (image : VAImage)
    (derived : Bool) (img : Image)
    (h : (Image.new env picture image derived).1 = .ok img) :
    img = { display := picture.display, image := image,
            data := { addr := env.mapAddr, len := image.data_size },
            derived := derived } ∧
    (Image.new env picture image derived).2 =
      [.mapBuffer picture.display.handle image.buf] := by
  by_cases hs : env.mapStatus = 0
  · simp [Image.new, va_check, hs] at h ⊢
    exact h.symm
  · simp [Image.new, va_check, hs] at h

/-- C1: when the map call fails, `Image::new` returns the translated error
and issues exactly one `vaDestroyImage` call, with the picture's display
handle and the descriptor's `image_id`, before returning; the whole trace
is the failed map call followed by that single destroy, so no mapping is
left alive. -/
theorem image_new_failure_cleanup (env : NativeEnv) (picture : Picture)
    (image : VAImage) (derived : Bool) (h : env.mapStatus ≠ 0) :
    (Image.new env picture image derived).1 = .error ⟨env.mapStatus⟩ ∧
    (Image.new env picture image derived).2 =
      [.mapBuffer picture.display.handle image.buf,
       .destroyImage picture.display.handle image.image_id] ∧
    ((Image.new env picture image derived).2.filter NativeCall.isDestroy).length = 1 := by
  refine ⟨?_, ?_, ?_⟩ <;>
    simp [Image.new, va_check, h, List.filter, NativeCall.isDestroy]

/-- Witness for C1 at a concrete failing environment. -/
theorem image_new_failure_cleanup_witness :
    ((3 : Int) ≠ 0) ∧
    ((Image.new ⟨3, 0, 0, 0⟩ ⟨⟨7⟩⟩ ⟨11, 22, 64⟩ true).1 = .error ⟨3⟩ ∧
     (Image.new ⟨3, 0, 0, 0⟩ ⟨⟨7⟩⟩ ⟨11, 22, 64⟩ true).2 =
       [.mapBuffer 7 22, .destroyImage 7 11] ∧
     ((Image.new ⟨3, 0, 0, 0⟩ ⟨⟨7⟩⟩ ⟨11, 22, 64⟩ true).2.filter
        NativeCall.isDestroy).length = 1) :=
  ⟨by decide, image_new_failure_cleanup ⟨3, 0, 0, 0⟩ ⟨⟨7⟩⟩ ⟨11, 22, 64⟩ true (by decide)⟩

/-- C2: dropping a successfully constructed instance issues exactly one
`vaUnmapBuffer(display, descriptor.buf)` followed by exactly one
`vaDestroyImage(display, descriptor.image_id)`, through the stored display
handle, unconditionally. -/
theorem image_drop_teardown (env : NativeEnv) (picture : Picture)
    (image : VAImage) (derived : Bool) (img : Image)
    (h : (Image.new env picture image derived).1 = .ok img) :
    Image.drop img =
      [.unmapBuffer picture.display.handle image.buf,
       .destroyImage picture.display.handle image.image_id] ∧
    ((Image.drop img).filter NativeCall.isUnmap).length = 1 ∧
    ((Image.drop img).filter NativeCall.isDestroy).length = 1 := by
  obtain ⟨himg, -⟩ := Image.new_ok env picture image derived img h
  subst himg
  refine ⟨rfl, rfl, rfl⟩

/-- Witness for C2 at a concrete successful construction. -/
theorem image_drop_teardown_witness :
    (Image.new ⟨0, 100, 0, 0⟩ ⟨⟨7⟩⟩ ⟨11, 22, 64⟩ true).1 =
      .ok ⟨⟨7⟩, ⟨11, 22, 64⟩, ⟨100, 64⟩, true⟩ ∧
    (Image.drop ⟨⟨7⟩, ⟨11, 22, 64⟩, ⟨100, 64⟩, true⟩ =
       [.unmapBuffer 7 22, .destroyImage 7 11] ∧
     ((Image.drop ⟨⟨7⟩, ⟨11, 22, 64⟩, ⟨100, 64⟩, true⟩).filter
        NativeCall.isUnmap).length = 1 ∧
     ((Image.drop ⟨⟨7⟩, ⟨11, 22, 64⟩, ⟨100, 64⟩, true⟩).filter
        NativeCall.isDestroy).length = 1) :=
  ⟨rfl, image_drop_teardown ⟨0, 100, 0, 0⟩ ⟨⟨7⟩⟩ ⟨11, 22, 64⟩ true
    ⟨⟨7⟩, ⟨11, 22, 64⟩, ⟨100, 64⟩, true⟩ rfl⟩

/-- C3: when the map call succeeds, construction succeeds and the returned
instance's byte view has length exactly `image.data_size` and starts at the
address answered by the map call. -/
theorem image_new_success_view (env : NativeEnv) (picture : Picture)
    (image : VAImage) (derived : Bool) (h : env.mapStatus = 0) :
    ∃ img, (Image.new env picture image derived).1 = .ok img ∧
      img.as_ref.len = image.data_size ∧ img.as_ref.addr = env.mapAddr := by
  refine ⟨{ display := picture.display, image := image,
            data := { addr := env.mapAddr, len := image.data_size },
            derived := derived }, ?_, rfl, rfl⟩
  simp [Image.new, va_check, h]

/-- Witness for C3 at a concrete successful environment. -/
theorem image_new_success_view_witness :
    ((0 : Int) = 0) ∧
    (∃ img, (Image.new ⟨0, 100, 0, 0⟩ ⟨⟨7⟩⟩ ⟨11, 22, 4096⟩ false).1 = .ok img ∧
      img.as_ref.len = 4096 ∧ img.as_ref.addr = 100) :=
  ⟨rfl, image_new_success_view ⟨0, 100, 0, 0⟩ ⟨⟨7⟩⟩ ⟨11, 22, 4096⟩ false rfl⟩

/-- C4: a failed construction issues exactly one destroy call and zero
unmap calls in total, and yields no instance, so no destruction-time
teardown can run in addition to the failure-path cleanup. -/
theorem image_new_failure_no_extra_teardown (env : NativeEnv)
    (picture : Picture) (image : VAImage) (derived : Bool)
    (h : env.mapStatus ≠ 0) :
    ((Image.new env picture image derived).2.filter NativeCall.isDestroy).length = 1 ∧
    ((Image.new env picture image derived).2.filter NativeCall.isUnmap).length = 0 ∧
    ∀ img, (Image.new env picture image derived).1 ≠ .ok img := by
  refine ⟨?_, ?_, ?_⟩ <;>
    simp [Image.new, va_check, h, List.filter, NativeCall.isDestroy, NativeCall.isUnmap]

/-- Witness for C4 at a concrete failing environment. -/
theorem image_new_failure_no_extra_teardown_witness :
    ((5 : Int) ≠ 0) ∧
    (((Image.new ⟨5, 0, 0, 0⟩ ⟨⟨9⟩⟩ ⟨1, 2, 16⟩ false).2.filter
        NativeCall.isDestroy).length = 1 ∧
     ((Image.new ⟨5, 0, 0, 0⟩ ⟨⟨9⟩⟩ ⟨1, 2, 16⟩ false).2.filter
        NativeCall.isUnmap).length = 0 ∧
     ∀ img, (Image.new ⟨5, 0, 0, 0⟩ ⟨⟨9⟩⟩ ⟨1, 2, 16⟩ false).1 ≠ .ok img) :=
  ⟨by decide, image_new_failure_no_extra_teardown ⟨5, 0, 0, 0⟩ ⟨⟨9⟩⟩ ⟨1, 2, 16⟩ false
    (by decide)⟩

/-- C5: for a successfully constructed instance, `is_derived()` returns
exactly the boolean passed to the constructor, and that value is unchanged
after any sequence of further operations on the instance. -/
theorem image_is_derived_fidelity (env : NativeEnv) (picture : Picture)
    (image : VAImage) (derived : Bool) (img : Image)
    (h : (Image.new env picture image derived).1 = .ok img) :
    img.is_derived = derived ∧
    ∀ ops : List AccessorOp, ((runAccessors ops img).2.1).is_derived = derived := by
  obtain ⟨himg, -⟩ := Image.new_ok env picture image derived img h
  subst himg
  exact ⟨rfl, fun ops => by simp [runAccessors_spec, Image.is_derived]⟩

/-- Witness for C5 at a concrete successful construction. -/
theorem image_is_derived_fidelity_witness :
    (Image.new ⟨0, 50, 0, 0⟩ ⟨⟨4⟩⟩ ⟨8, 9, 10⟩ true).1 =
      .ok ⟨⟨4⟩, ⟨8, 9, 10⟩, ⟨50, 10⟩, true⟩ ∧
    (Image.is_derived ⟨⟨4⟩, ⟨8, 9, 10⟩, ⟨50, 10⟩, true⟩ = true ∧
     ∀ ops : List AccessorOp,
       ((runAccessors ops ⟨⟨4⟩, ⟨8, 9, 10⟩, ⟨50, 10⟩, true⟩).2.1).is_derived = true) :=
  ⟨rfl, image_is_derived_fidelity ⟨0, 50, 0, 0⟩ ⟨⟨4⟩⟩ ⟨8, 9, 10⟩ true
    ⟨⟨4⟩, ⟨8, 9, 10⟩, ⟨50, 10⟩, true⟩ rfl⟩

/-- C6: any sequence of calls to the descriptor accessor, `is_derived` or
the byte-view accessor returns, for each call, the value computed from the
original instance (so repeated calls in any order agree), leaves the
instance unchanged, and issues no native call. -/
theorem image_accessor_purity (img : Image) (ops : List AccessorOp) :
    (runAccessors ops img).1 = ops.map (fun op => (runAccessor op img).1) ∧
    (runAccessors ops img).2.1 = img ∧
    (runAccessors ops img).2.2 = [] := by
  simp [runAccessors_spec]

/-- C7: a successfully constructed instance stores the display of the
picture used at construction, and every native call it makes, the map call
at construction and both teardown calls at destruction, is issued through
that one display handle. -/
theorem image_single_display_handle (env : NativeEnv) (picture : Picture)
    (image : VAImage) (derived : Bool) (img : Image)
    (h : (Image.new env picture image derived).1 = .ok img) :
    img.display = picture.display ∧
    (∀ c ∈ (Image.new env picture image derived).2, c.dpy = picture.display.handle) ∧
    (∀ c ∈ Image.drop img, c.dpy = picture.display.handle) := by
  obtain ⟨himg, htrace⟩ := Image.new_ok env picture image derived img h
  subst himg
  refine ⟨rfl, ?_, ?_⟩ <;>
    simp [htrace, Image.drop, NativeCall.dpy]

/-- Witness for C7 at a concrete successful construction. -/
theorem image_single_display_handle_witness :
    (Image.new ⟨0, 60, 0, 0⟩ ⟨⟨3⟩⟩ ⟨5, 6, 7⟩ false).1 =
      .ok ⟨⟨3⟩, ⟨5, 6, 7⟩, ⟨60, 7⟩, false⟩ ∧
    (Display.mk 3 = ⟨3⟩ ∧
     (∀ c ∈ (Image.new ⟨0, 60, 0, 0⟩ ⟨⟨3⟩⟩ ⟨5, 6, 7⟩ false).2, c.dpy = 3) ∧
     (∀ c ∈ Image.drop ⟨⟨3⟩, ⟨5, 6, 7⟩, ⟨60, 7⟩, false⟩, c.dpy = 3)) :=
  ⟨rfl, image_single_display_handle ⟨0, 60, 0, 0⟩ ⟨⟨3⟩⟩ ⟨5, 6, 7⟩ false
    ⟨⟨3⟩, ⟨5, 6, 7⟩, ⟨60, 7⟩, false⟩ rfl⟩

/-- C8: on the failure path the returned error is exactly the translated
status of the failed map call, and it is independent of the status the
cleanup destroy call answers: two environments agreeing on the map status
yield the same error whatever their destroy statuses. -/
theorem image_new_error_from_map_status (env env2 : NativeEnv)
    (picture : Picture) (image : VAImage) (derived : Bool)
    (hm : env.mapStatus = env2.mapStatus) (h : env.mapStatus ≠ 0) :
    (Image.new env picture image derived).1 = .error ⟨env.mapStatus⟩ ∧
    (Image.new env picture image derived).1 =
      (Image.new env2 picture image derived).1 := by
  constructor <;>
    simp [Image.new, va_check, h, ← hm]

/-- Witness for C8: two environments sharing the failing map status 4 but
with destroy statuses 0 and 9 return the same error. -/
theorem image_new_error_from_map_status_witness :
    ((4 : Int) = 4 ∧ (4 : Int) ≠ 0) ∧
    ((Image.new ⟨4, 0, 0, 0⟩ ⟨⟨2⟩⟩ ⟨1, 2, 3⟩ true).1 = .error ⟨4⟩ ∧
     (Image.new ⟨4, 0, 0, 0⟩ ⟨⟨2⟩⟩ ⟨1, 2, 3⟩ true).1 =
       (Image.new ⟨4, 0, 9, 9⟩ ⟨⟨2⟩⟩ ⟨1, 2, 3⟩ true).1) :=
  ⟨⟨rfl, by decide⟩, image_new_error_from_map_status ⟨4, 0, 0, 0⟩ ⟨4, 0, 9, 9⟩
    ⟨⟨2⟩⟩ ⟨1, 2, 3⟩ true rfl (by decide)⟩

/-- C9: for a successfully constructed instance, the length of the byte
view equals the `data_size` field of the descriptor returned by the
descriptor accessor, and this equality still holds after any sequence of
further operations on the instance. -/
theorem image_view_len_eq_data_size (env : NativeEnv) (picture : Picture)
    (image : VAImage) (derived : Bool) (img : Image)
    (h : (Image.new env picture image derived).1 = .ok img) :
    img.as_ref.len = img.image.data_size ∧
    ∀ ops : List AccessorOp,
      ((runAccessors ops img).2.1).as_ref.len =
        ((runAccessors ops img).2.1).image.data_size := by
  obtain ⟨himg, -⟩ := Image.new_ok env picture image derived img h
  subst himg
  exact ⟨rfl, fun ops => by simp [runAccessors_spec, Image.as_ref]⟩

/-- Witness for C9 at a concrete successful construction. -/
theorem image_view_len_eq_data_size_witness :
    (Image.new ⟨0, 80, 0, 0⟩ ⟨⟨1⟩⟩ ⟨2, 3, 4096⟩ false).1 =
      .ok ⟨⟨1⟩, ⟨2, 3, 4096⟩, ⟨80, 4096⟩, false⟩ ∧
    (Image.as_ref ⟨⟨1⟩, ⟨2, 3, 4096⟩, ⟨80, 4096⟩, false⟩ |>.len) =
      (Image.mk ⟨1⟩ ⟨2, 3, 4096⟩ ⟨80, 4096⟩ false).image.data_size ∧
    ∀ ops : List AccessorOp,
      ((runAccessors ops ⟨⟨1⟩, ⟨2, 3, 4096⟩, ⟨80, 4096⟩, false⟩).2.1).as_ref.len =
        ((runAccessors ops ⟨⟨1⟩, ⟨2, 3, 4096⟩, ⟨80, 4096⟩, false⟩).2.1).image.data_size := by
  have h := image_view_len_eq_data_size ⟨0, 80, 0, 0⟩ ⟨⟨1⟩⟩ ⟨2, 3, 4096⟩ false
    ⟨⟨1⟩, ⟨2, 3, 4096⟩, ⟨80, 4096⟩, false⟩ rfl
  exact ⟨rfl, h.1, h.2⟩

/-- C10: construction is deterministic given the native layer's map
response: two environments agreeing on the map status and the mapped
address give identical results and identical native-call traces, for the
same picture, descriptor and derived flag. -/
theorem image_new_deterministic (env env2 : NativeEnv) (picture : Picture)
    (image : VAImage) (derived : Bool)
    (hs : env.mapStatus = env2.mapStatus) (ha : env.mapAddr = env2.mapAddr) :
    Image.new env picture image derived = Image.new env2 picture image derived := by
  simp [Image.new, va_check, hs, ha]

/-- Witness for C10: two environments differing only in their discarded
unmap and destroy statuses construct identically. -/
theorem image_new_deterministic_witness :
    ((0 : Int) = 0 ∧ (100 : Nat) = 100) ∧
    Image.new ⟨0, 100, 1, 2⟩ ⟨⟨7⟩⟩ ⟨11, 22, 64⟩ true =
      Image.new ⟨0, 100, 8, 9⟩ ⟨⟨7⟩⟩ ⟨11, 22, 64⟩ true :=
  ⟨⟨rfl, rfl⟩, image_new_deterministic ⟨0, 100, 1, 2⟩ ⟨0, 100, 8, 9⟩
    ⟨⟨7⟩⟩ ⟨11, 22, 64⟩ true rfl rfl⟩

end CrosLibva
